import Mathlib

/-
Verification development for the LLMDistiller repository.

Shallow embedding of the Python sources into Lean 4:
  * src/llm_distiller/llm/base.py        (ThinkingExtractor)
  * src/utils/rate_limiter.py            (RateLimiter)
  * src/processing/manager.py            (LLMProviderManager)
  * src/processing/models.py             (QuestionTask, WorkerResult, ProcessingStatus)
  * src/processing/queue.py              (QuestionQueue)
  * src/processing/worker.py             (QuestionWorker)
  * src/validators/schema_validator.py   (SchemaValidator)
  * src/llm_distiller/importers/base.py and csv_importer.py (CSV import)
  * src/llm_distiller/config/settings.py (ProcessingConfig)

Machine strings are `String`/`List Char`; Python `None`-able values are
`Option`; a Python expression that can raise is embedded as `Except`.
Third-party library behaviour (the stdlib json parser, the jsonschema
Draft-7 validator, the provider HTTP call) is passed in as a parameter, so
theorems quantify over every possible behaviour of those dependencies.
-/

/-! ## Python string primitives -/

/-- Lower-case one character, as Python str.lower does for ASCII. -/
def lcChar (c : Char) : Char := c.toLower

/-- Case-insensitive test that `pat` (given lower-case) starts the list `s`. -/
def leadCI : List Char → List Char → Bool
  | [], _ => true
  | _ :: _, [] => false
  | p :: ps, c :: cs => (lcChar c = p) && leadCI ps cs

/-- Case-insensitive substring test: Python `pat in s.lower()` for a
lower-case `pat`. -/
def containsCI (pat : List Char) : List Char → Bool
  | [] => leadCI pat []
  | c :: cs => leadCI pat (c :: cs) || containsCI pat cs

/-- Index of the first case-insensitive occurrence of `tag` in the list. -/
def findTagIdx (tag : List Char) : List Char → Option Nat
  | [] => if leadCI tag [] then some 0 else none
  | c :: cs =>
    if leadCI tag (c :: cs) then some 0
    else (findTagIdx tag cs).map (· + 1)

/-- The characters Python str.strip removes. -/
def isPySpace (c : Char) : Bool :=
  c = ' ' || c = '\t' || c = '\n' || c = '\r' || c = '\x0b' || c = '\x0c'

/-- Python str.strip(): drop whitespace from both ends. -/
def pyStrip (l : List Char) : List Char :=
  ((l.dropWhile isPySpace).reverse.dropWhile isPySpace).reverse

/-- Python `a or b` for an optional string `a`: `a` wins when it is a
non-empty string, else the result is `b`. -/
def pyOrOpt (a b : Option String) : Option String :=
  match a with
  | some s => if s = "" then b else some s
  | none => b

/-- Python `a or b` where `b` is a plain string default. -/
def pyOrStr (a : Option String) (b : String) : String :=
  match a with
  | some s => if s = "" then b else s
  | none => b

/-! ## ThinkingExtractor (src/llm_distiller/llm/base.py, lines 89-134)

The regex `<think>(.*?)</think>` with DOTALL and IGNORECASE matches at the
first occurrence of the opening tag, with the lazy group ending at the first
closing tag that follows it; `re.sub` removes every non-overlapping match,
scanning left to right. -/

def thinkOpen : List Char := "<think>".toList
def thinkClose : List Char := "</think>".toList
def reasonOpen : List Char := "<reason>".toList
def reasonClose : List Char := "</reason>".toList

/-- Python re.search: the first delimited span, as (text before the span, inner
group, text after the span); `none` when the pattern does not match. -/
def spanSearch (openT closeT s : List Char) :
    Option (List Char × List Char × List Char) :=
  match findTagIdx openT s with
  | none => none
  | some i =>
    let rest := s.drop (i + openT.length)
    match findTagIdx closeT rest with
    | none => none
    | some j => some (s.take i, rest.take j, rest.drop (j + closeT.length))

/-- Python re.sub of a tag span by "": remove every non-overlapping match, scanning
left to right.  `fuel` makes the recursion structural; every step consumes at
least one character (the open tag is non-empty), so `fuel = s.length` never
runs out and the scan is faithful to the regex. -/
def removeSpansAux (openT closeT : List Char) : Nat → List Char → List Char
  | 0, s => s
  | _ + 1, [] => []
  | fuel + 1, c :: cs =>
    if leadCI openT (c :: cs) then
      match findTagIdx closeT ((c :: cs).drop openT.length) with
      | some j => removeSpansAux openT closeT fuel
          ((c :: cs).drop (openT.length + j + closeT.length))
      | none => c :: removeSpansAux openT closeT fuel cs
    else c :: removeSpansAux openT closeT fuel cs

/-- Removal of every think span, as re.sub does (DOTALL, IGNORECASE). -/
def removeThink (s : List Char) : List Char :=
  removeSpansAux thinkOpen thinkClose s.length s

/-- Removal of every reason span, as re.sub does (DOTALL, IGNORECASE). -/
def removeReason (s : List Char) : List Char :=
  removeSpansAux reasonOpen reasonClose s.length s

/-- The tag-search fallback chain of extract_thinking (lines 111-134):
first the think span, then the reason span, else the content unchanged. -/
def tagSearch (content : List Char) : List Char × Option (List Char) :=
  match spanSearch thinkOpen thinkClose content with
  | some (_, inner, _) => (pyStrip (removeThink content), some (pyStrip inner))
  | none =>
    match spanSearch reasonOpen reasonClose content with
    | some (_, inner, _) => (pyStrip (removeReason content), some (pyStrip inner))
    | none => (content, none)

/-- ThinkingExtractor.extract_thinking(content, separate_reasoning):
returns (cleaned_content, thinking). -/
def extractThinking (content : List Char) (separateReasoning : Option (List Char)) :
    List Char × Option (List Char) :=
  match separateReasoning with
  | some r =>
    if !r.isEmpty && !(pyStrip r).isEmpty then (content, some (pyStrip r))
    else tagSearch content
  | none => tagSearch content

/-! ## RateLimiter (src/utils/rate_limiter.py, lines 27-89)

Timestamps are embedded as natural-number seconds; the two deques of
request_history are front-first lists. -/

structure RLState where
  minuteLog : List Nat
  hourLog : List Nat
deriving DecidableEq

/-- Number of recorded events that fall in the same `w`-second bucket as
`now` (the list comprehensions at lines 38-42 and 50-54). -/
def bucketCount (w : Nat) (log : List Nat) (now : Nat) : Nat :=
  (log.filter (fun r => r / w == now / w)).length

/-- RateLimiter._cleanup_old_requests: pop from the front while the entry is older than
the cutoff (Nat subtraction agrees with Python here because timestamps are
non-negative). -/
def rlCleanup (st : RLState) (now : Nat) : RLState :=
  { minuteLog := st.minuteLog.dropWhile (fun r => decide (r < now - 60)),
    hourLog := st.hourLog.dropWhile (fun r => decide (r < now - 3600)) }

/-- RateLimiter.acquire(): deny when the current minute bucket is full, then
when the current hour bucket is full; otherwise record `now` in both logs,
clean up, and admit. -/
def rlAcquire (rpm rph : Nat) (st : RLState) (now : Nat) : Bool × RLState :=
  if bucketCount 60 st.minuteLog now ≥ rpm then (false, st)
  else if bucketCount 3600 st.hourLog now ≥ rph then (false, st)
  else
    (true, rlCleanup { minuteLog := st.minuteLog ++ [now],
                       hourLog := st.hourLog ++ [now] } now)

/-! ## Configuration (src/llm_distiller/config/settings.py)

`from llm_distiller.config import ...` in the processing package resolves to
this module.  `ProcessingConfig` (lines 89-104) declares exactly the five
fields below; pydantic raises AttributeError on access to any other
attribute name. -/

structure GenerationConfig where
  temperature : Rat
  maxTokens : Nat
  topP : Rat
  frequencyPenalty : Rat
  presencePenalty : Rat
deriving DecidableEq

structure ProcessingConfig where
  batchSize : Nat
  maxRetries : Nat
  timeoutSeconds : Nat
  validateResponses : Bool
  generationParams : GenerationConfig
deriving DecidableEq

/-- Errors a Python expression in the embedded fragment can raise. -/
inductive PyError where
  | attributeError (name : String)
  | keyError
deriving DecidableEq

/-- Values a pydantic attribute read can produce. -/
inductive PyVal where
  | int (n : Nat)
  | bool (b : Bool)
  | gen (g : GenerationConfig)
deriving DecidableEq

/-- Attribute access on a ProcessingConfig instance: the five declared
fields resolve, every other name raises AttributeError (pydantic models do
not grow attributes dynamically). -/
def ProcessingConfig.getattr (c : ProcessingConfig) : String → Except PyError PyVal
  | "batch_size" => .ok (.int c.batchSize)
  | "max_retries" => .ok (.int c.maxRetries)
  | "timeout_seconds" => .ok (.int c.timeoutSeconds)
  | "validate_responses" => .ok (.bool c.validateResponses)
  | "generation_params" => .ok (.gen c.generationParams)
  | n => .error (.attributeError n)

/-! ## Provider manager (src/processing/manager.py) -/

/-- ParsedResponse (src/llm_distiller/llm/base.py, lines 13-31); the only
metadata key the manager reads is processing_time_ms, embedded as its own
field. -/
structure ParsedResponse where
  content : String
  tokensUsed : Option Nat
  model : Option String
  metaProcessingTimeMs : Option Nat
  thinking : Option String
deriving DecidableEq

/-- One registered provider: its model name (BaseLLMProvider.model_name) and
the outcome of generate_response as a function of the prompt it receives.
The function abstracts the provider HTTP call, so theorems quantify over
arbitrary provider behaviour; a raised exception is the `.error` case with
the exception message text. -/
structure Provider where
  modelName : String
  gen : String → Except String ParsedResponse

/-- WorkerResult (src/processing/models.py, lines 91-105). -/
structure WorkerResult where
  questionId : Nat
  providerName : String
  modelName : String
  success : Bool
  responseText : Option String := none
  thinking : Option String := none
  errorMessage : Option String := none
  errorType : Option String := none
  tokensUsed : Option Nat := none
  costCents : Option Nat := none
  processingTimeMs : Option Nat := none
  validationErrors : Option (List String) := none
deriving DecidableEq

/-- LLMProviderManager._classify_error (manager.py, lines 190-208): case-insensitive substring
matching on the error message. -/
def classifyError (msg : String) : String :=
  let m := msg.toList
  if containsCI "rate limit".toList m || containsCI "too many requests".toList m
      || containsCI "rate_limit".toList m then "rate_limit"
  else if containsCI "timeout".toList m || containsCI "connection".toList m
      || containsCI "network".toList m then "timeout"
  else if containsCI "authentication".toList m || containsCI "unauthorized".toList m
      || containsCI "forbidden".toList m || containsCI "api key".toList m then "auth"
  else "general"

/-- Registration-ordered provider registry (Python dict with unique keys). -/
def providerKeys (providers : List (String × Provider)) : List String :=
  providers.map Prod.fst

/-- First-match association lookup, as a Python dict read. -/
def lookupStr {α : Type} (l : List (String × α)) (k : String) : Option α :=
  match l with
  | [] => none
  | (k', v) :: t => if k' = k then some v else lookupStr t k

/-- Truthiness of `preferred_provider and preferred_provider in self.providers`. -/
def preferredOk (providers : List (String × Provider)) (preferred : Option String) : Bool :=
  match preferred with
  | some p => p ≠ "" && (providerKeys providers).contains p
  | none => false

/-- The dedup-append loop of the rate_limit_only / all branches:
start from `base` and append each registered name not already present. -/
def appendMissing (base : List String) (keys : List String) : List String :=
  keys.foldl (fun acc k => if acc.contains k then acc else acc ++ [k]) base

/-- LLMProviderManager._get_providers_for_strategy (manager.py, lines 116-157).  An unknown
strategy name recurses with "none"; that branch is inlined here. -/
def getProvidersForStrategy (providers : List (String × Provider))
    (strategy : String) (preferred : Option String) : List String :=
  match strategy with
  | "none" =>
    if preferredOk providers preferred then [preferred.getD ""] else []
  | "preferred_only" =>
    if preferredOk providers preferred then [preferred.getD ""]
    else providerKeys providers
  | "rate_limit_only" =>
    appendMissing (if preferredOk providers preferred then [preferred.getD ""] else [])
      (providerKeys providers)
  | "all" =>
    appendMissing (if preferredOk providers preferred then [preferred.getD ""] else [])
      (providerKeys providers)
  | _ =>
    if preferredOk providers preferred then [preferred.getD ""] else []

/-- LLMProviderManager._should_failover (manager.py, lines 159-188).  The rate_limit_only
branch reads `settings.processing.failover_on_errors`, an attribute
ProcessingConfig does not declare, so that read raises. -/
def shouldFailover (cfg : ProcessingConfig) (strategy _errType : String)
    (attempt total : Nat) : Except PyError Bool :=
  if attempt + 1 ≥ total then .ok false
  else
    match strategy with
    | "none" => .ok false
    | "preferred_only" => .ok false
    | "rate_limit_only" =>
      (cfg.getattr "failover_on_errors").map (fun _ => false)
    | "all" => .ok true
    | _ => .ok false

/-- Line 229: `strategy = failover_strategy or self.settings.processing.failover_strategy`.
A non-empty override short-circuits; otherwise the attribute is read (and
raises, since ProcessingConfig declares no failover_strategy field). -/
def resolveStrategy (cfg : ProcessingConfig) (override : Option String) :
    Except PyError String :=
  match override with
  | some s =>
    if s ≠ "" then .ok s
    else (cfg.getattr "failover_strategy").map (fun _ => "")
  | none => (cfg.getattr "failover_strategy").map (fun _ => "")

/-- Line 270-273: prepend the system prompt and a blank line when supplied. -/
def buildFullPrompt (systemPrompt : Option String) (prompt : String) : String :=
  match systemPrompt with
  | some s => if s ≠ "" then s ++ "\n\n" ++ prompt else prompt
  | none => prompt

/-- The successful WorkerResult built at lines 290-299. -/
def successResult (name : String) (p : Provider) (resp : ParsedResponse) : WorkerResult :=
  { questionId := 0
    providerName := name
    modelName := pyOrStr resp.model p.modelName
    success := true
    responseText := some resp.content
    thinking := resp.thinking
    tokensUsed := resp.tokensUsed
    processingTimeMs := resp.metaProcessingTimeMs }

/-- The terminal-failure WorkerResult built at lines 326-333. -/
def failureResult (preferred : Option String) (lastErr lastErrType : Option String) :
    WorkerResult :=
  { questionId := 0
    providerName := pyOrStr preferred "unknown"
    modelName := "unknown"
    success := false
    errorMessage := some (pyOrStr lastErr "All providers failed")
    errorType := some (pyOrStr lastErrType "provider_error") }

/-- The configuration-error WorkerResult built at lines 242-249. -/
def configErrorResult (preferred : Option String) (strategy : String) : WorkerResult :=
  { questionId := 0
    providerName := pyOrStr preferred "unknown"
    modelName := "unknown"
    success := false
    errorMessage := some ("No providers available for strategy \x27" ++ strategy ++ "\x27")
    errorType := some "configuration_error" }

/-- The provider loop of generate_response_with_failover (lines 256-317).
The rate-limiter acquire at line 267 is awaited but its boolean result is
ignored, and it cannot raise, so it does not appear in the outcome. -/
def attemptLoop (cfg : ProcessingConfig) (providers : List (String × Provider))
    (strategy fullPrompt : String) (preferred : Option String) (total : Nat) :
    List String → Nat → Option String → Option String → Except PyError WorkerResult
  | [], _, lastErr, lastErrType => .ok (failureResult preferred lastErr lastErrType)
  | n :: rest, i, _lastErr, _lastErrType =>
    match lookupStr providers n with
    | none => .error .keyError
    | some p =>
      match p.gen fullPrompt with
      | .ok resp => .ok (successResult n p resp)
      | .error msg =>
        let et := classifyError msg
        match shouldFailover cfg strategy et i total with
        | .error e => .error e
        | .ok true => attemptLoop cfg providers strategy fullPrompt preferred total
            rest (i + 1) (some msg) (some et)
        | .ok false => .ok (failureResult preferred (some msg) (some et))

/-- LLMProviderManager.generate_response_with_failover
(manager.py, lines 210-333). -/
def generateWithFailover (cfg : ProcessingConfig) (providers : List (String × Provider))
    (prompt : String) (preferred systemPrompt strategyOverride : Option String) :
    Except PyError WorkerResult :=
  match resolveStrategy cfg strategyOverride with
  | .error e => .error e
  | .ok strategy =>
    let toTry := getProvidersForStrategy providers strategy preferred
    if toTry.isEmpty then .ok (configErrorResult preferred strategy)
    else attemptLoop cfg providers strategy (buildFullPrompt systemPrompt prompt)
      preferred toTry.length toTry 0 none none

/-- The two registries owned by the manager (providers and rate limiters). -/
structure ManagerState where
  providers : List (String × Provider)
  rateLimiters : List (String × RLState)

/-- LLMProviderManager.remove_provider (manager.py, lines 361-374):
delete the name from both dicts, then return `name in self.providers`
evaluated on the already-updated dict. -/
def removeProvider (st : ManagerState) (name : String) : Bool × ManagerState :=
  let ps := if (providerKeys st.providers).contains name
    then st.providers.filter (fun kv => kv.1 ≠ name) else st.providers
  let rls := if (st.rateLimiters.map Prod.fst).contains name
    then st.rateLimiters.filter (fun kv => kv.1 ≠ name) else st.rateLimiters
  ((ps.map Prod.fst).contains name, { providers := ps, rateLimiters := rls })

/-! ## Question queue (src/processing/models.py and queue.py)

The asyncio queue holds the task objects that also live in the `_tasks`
dict; the embedding keeps the canonical task in an insertion-ordered map and
queues task ids, which models that aliasing.  `created_at` is a wall-clock
datetime never read by any embedded operation and is omitted. -/

inductive TaskStatus where
  | pending
  | processing
  | completed
  | failed
deriving DecidableEq

/-- QuestionTask (models.py, lines 71-88). -/
structure QuestionTask where
  questionId : Nat
  category : String
  questionText : String
  goldenAnswer : Option String
  answerSchema : Option String
  providerName : Option String := none
  retryCount : Nat := 0
  maxRetries : Nat := 3
  status : TaskStatus := .pending
  errorMessage : Option String := none
deriving DecidableEq

/-- First-match association lookup for Nat keys (a Python dict read). -/
def assocFind {α : Type} (l : List (Nat × α)) (k : Nat) : Option α :=
  match l with
  | [] => none
  | (k', v) :: t => if k' = k then some v else assocFind t k

/-- Python dict assignment: replace the entry when the key exists, else
append it (dict keys are unique, so replacing every hit is equivalent). -/
def assocPut {α : Type} (l : List (Nat × α)) (k : Nat) (v : α) : List (Nat × α) :=
  if (l.map Prod.fst).contains k
  then l.map (fun kv => if kv.1 = k then (k, v) else kv)
  else l ++ [(k, v)]

/-- Python set.add on a list-backed set. -/
def setInsert (l : List Nat) (x : Nat) : List Nat :=
  if l.contains x then l else l ++ [x]

/-- Python set.discard / set.remove on a list-backed set. -/
def setErase (l : List Nat) (x : Nat) : List Nat :=
  l.filter (fun y => y ≠ x)

structure QueueState where
  queue : List Nat
  processing : List Nat
  completed : List Nat
  failed : List Nat
  tasks : List (Nat × QuestionTask)
deriving DecidableEq

/-- QuestionQueue.add_task (queue.py, lines 21-26). -/
def addTask (st : QueueState) (t : QuestionTask) : QueueState :=
  let tasks := assocPut st.tasks t.questionId t
  if t.status = .pending then
    { st with tasks := tasks, queue := st.queue ++ [t.questionId] }
  else { st with tasks := tasks }

/-- QuestionQueue.get_next_task (queue.py, lines 36-45): dequeue, mark the
task PROCESSING, track it in the processing set; `none` when the 1-second
poll times out on an empty queue. -/
def getNextTask (st : QueueState) : Option QuestionTask × QueueState :=
  match st.queue with
  | [] => (none, st)
  | id :: rest =>
    match assocFind st.tasks id with
    | none => (none, st)
    | some t =>
      let t' := { t with status := TaskStatus.processing }
      (some t', { st with queue := rest, tasks := assocPut st.tasks id t',
                          processing := setInsert st.processing id })

/-- QuestionQueue.mark_completed (queue.py, lines 47-60). -/
def markCompleted (st : QueueState) (id : Nat) (success : Bool) : QueueState :=
  let p := setErase st.processing id
  match assocFind st.tasks id with
  | none => { st with processing := p }
  | some t =>
    if success then
      { st with processing := p,
                tasks := assocPut st.tasks id { t with status := TaskStatus.completed },
                completed := setInsert st.completed id }
    else
      { st with processing := p,
                tasks := assocPut st.tasks id { t with status := TaskStatus.failed },
                failed := setInsert st.failed id }

/-- QuestionQueue.retry_task (queue.py, lines 62-80). -/
def retryTask (st : QueueState) (id : Nat) : Bool × QueueState :=
  match assocFind st.tasks id with
  | none => (false, st)
  | some t =>
    if t.retryCount < t.maxRetries then
      let t' := { t with retryCount := t.retryCount + 1,
                         status := TaskStatus.pending, errorMessage := none }
      (true, { st with tasks := assocPut st.tasks id t',
                       failed := setErase st.failed id,
                       queue := st.queue ++ [id] })
    else (false, st)

/-! ## Schema validator (src/validators/schema_validator.py)

The stdlib json parser and the jsonschema Draft-7 validator are third-party
dependencies; they enter as parameters `loads` (json.loads: parse failure is
`.error` with the exception message) and `iter` (constructing a
Draft7Validator and listing iter_errors: a jsonschema.SchemaError is
`.error`, otherwise the list of violations in iteration order). -/

/-- A parsed JSON value.  `emptyObject` is the literal empty dict the
ValidationResult constructor substitutes for falsy data. -/
inductive JsonVal where
  | null
  | bool (b : Bool)
  | num (n : Int)
  | str (s : String)
  | emptyObject
deriving DecidableEq

/-- Python truthiness of a parsed JSON value. -/
def jsonTruthy : JsonVal → Bool
  | .null => false
  | .bool b => b
  | .num n => n ≠ 0
  | .str s => s ≠ ""
  | .emptyObject => false

/-- One jsonschema ValidationError: its path elements and message. -/
structure SchemaViolation where
  path : List String
  message : String
deriving DecidableEq

/-- ValidationResult (schema_validator.py, lines 11-27): the constructor
replaces a missing or falsy normalized_response by an empty dict. -/
structure VResult where
  isValid : Bool
  errors : List String
  normalized : JsonVal
deriving DecidableEq

/-- Build a ValidationResult the way `__init__` does from an optional
normalized_response argument (`normalized_response or \x7b\x7d`). -/
def mkVResult (isValid : Bool) (errors : List String) (normalized : Option JsonVal) :
    VResult :=
  { isValid := isValid, errors := errors,
    normalized := match normalized with
      | some d => if jsonTruthy d then d else .emptyObject
      | none => .emptyObject }

/-- The error formatting of validate_json_data (lines 77-80). -/
def formatViolation (v : SchemaViolation) : String :=
  "Path \x27" ++ (if v.path.isEmpty then "root" else String.intercalate " -> " v.path)
    ++ "\x27: " ++ v.message

/-- SchemaValidator.validate_json_data (lines 57-87). -/
def validateJsonData (iter : JsonVal → JsonVal → Except String (List SchemaViolation))
    (data schema : JsonVal) : VResult :=
  match iter data schema with
  | .error m => mkVResult false ["Invalid schema: " ++ m] none
  | .ok [] => mkVResult true [] (some data)
  | .ok (v :: vs) => mkVResult false ((v :: vs).map formatViolation) none

/-- SchemaValidator.validate_response (lines 37-55). -/
def validateResponseSV (loads : String → Except String JsonVal)
    (iter : JsonVal → JsonVal → Except String (List SchemaViolation))
    (response : String) (schema : JsonVal) : VResult :=
  match loads response with
  | .error m => mkVResult false ["Invalid JSON: " ++ m] none
  | .ok d => validateJsonData iter d schema

/-! ## Question worker (src/processing/worker.py) -/

/-- The argument tuple process_question passes to
generate_response_with_failover (worker.py, lines 56-59): only the prompt
and preferred provider are given; the system_prompt and failover_strategy
parameters of the manager (manager.py, lines 210-216) are left at their
None defaults. -/
structure GenerateCallArgs where
  prompt : String
  preferredProvider : Option String
  systemPrompt : Option String
  failoverStrategy : Option String
deriving DecidableEq

def processQuestionGenerateArgs (task : QuestionTask) : GenerateCallArgs :=
  { prompt := task.questionText
    preferredProvider := task.providerName
    systemPrompt := none
    failoverStrategy := none }

/-- Where process_question persists the outcome: _store_valid_response
writes a Response row, _store_invalid_response an InvalidResponse row. -/
inductive StoreKind where
  | storeValid
  | storeInvalid
deriving DecidableEq

/-- QuestionWorker._validate_response (worker.py, lines 163-218):
empty text short-circuits; then the schema string is parsed with json.loads
(lines 186, 209-212: a parse failure is caught and returned as a single
"Invalid JSON schema" error); then the schema validator runs. -/
def workerValidate (loads : String → Except String JsonVal)
    (iter : JsonVal → JsonVal → Except String (List SchemaViolation))
    (hasValidator : Bool) (responseText : Option String) (schemaJson : String) :
    Option (List String) :=
  match responseText with
  | none => some ["Response text is empty"]
  | some rt =>
    if rt = "" then some ["Response text is empty"]
    else
      match loads schemaJson with
      | .error m => some ["Invalid JSON schema: " ++ m]
      | .ok schema =>
        if hasValidator then
          let vr := validateResponseSV loads iter rt schema
          if vr.isValid then none else some vr.errors
        else none

/-- The part of QuestionWorker.process_question after the manager call
returns (worker.py, lines 61-138): stamp the question id, re-extract
thinking when absent, store failures as invalid, run schema validation when
enabled and a schema is present, and otherwise store the result as valid
with the measured elapsed time.  The worker builds its validator exactly
when validate_responses is true (line 37). -/
def processAfterGeneration (loads : String → Except String JsonVal)
    (iter : JsonVal → JsonVal → Except String (List SchemaViolation))
    (validateResponses : Bool) (elapsedMs : Nat)
    (task : QuestionTask) (genResult : WorkerResult) : WorkerResult × StoreKind :=
  let r0 := { genResult with questionId := task.questionId }
  let r1 := match r0.thinking with
    | some _ => r0
    | none =>
      let e := extractThinking (r0.responseText.getD "").toList none
      { r0 with responseText := some (String.mk e.1),
                thinking := e.2.map (fun l => String.mk l) }
  if r1.success = false then (r1, .storeInvalid)
  else
    let schemaTruthy := match task.answerSchema with
      | some s => s ≠ ""
      | none => false
    if validateResponses && schemaTruthy then
      match workerValidate loads iter validateResponses r1.responseText
          (task.answerSchema.getD "") with
      | some (e :: es) =>
        ({ questionId := task.questionId
           providerName := r1.providerName
           modelName := r1.modelName
           success := false
           responseText := r1.responseText
           thinking := r1.thinking
           errorMessage := some "Schema validation failed"
           errorType := some "schema_validation"
           validationErrors := some (e :: es)
           tokensUsed := r1.tokensUsed
           processingTimeMs := r1.processingTimeMs }, .storeInvalid)
      | _ => ({ r1 with processingTimeMs := some elapsedMs }, .storeValid)
    else ({ r1 with processingTimeMs := some elapsedMs }, .storeValid)

/-! ## CSV importer (src/llm_distiller/importers/base.py and csv_importer.py)

File access (validate_source, the csv.DictReader pass) is I/O; rows enter
the embedding at the DictReader level, as association lists from header
column to cell string (an absent column reads as None, a present empty cell
as the empty string). -/

/-- The parameter names QuestionData.__init__ accepts (base.py, lines 12-21).
There is no system_prompt parameter. -/
def questionDataParams : List String :=
  ["json_id", "category", "question_text", "golden_answer", "answer_schema",
   "default_correct", "metadata"]

/-- The keyword arguments extract_data passes to QuestionData
(csv_importer.py, lines 63-72). -/
def extractRowKwargs : List String :=
  ["json_id", "category", "question_text", "golden_answer", "answer_schema",
   "system_prompt", "default_correct", "metadata"]

/-- The normalized record QuestionData carries (base.py, lines 22-28);
metadata holds only row provenance and is omitted. -/
structure QuestionData where
  jsonId : Option String
  category : Option String
  questionText : Option String
  goldenAnswer : Option String
  answerSchema : Option String
  defaultCorrect : Option Bool
deriving DecidableEq

/-- A persisted Question row (the columns store_data fills). -/
structure DBQuestion where
  jsonId : Option String
  category : Option String
  questionText : Option String
  goldenAnswer : Option String
  answerSchema : Option String
  systemPrompt : Option String
  defaultCorrect : Option Bool
deriving DecidableEq

/-- ImportResult (base.py, lines 34-49). -/
structure ImportResult where
  success : Bool
  importedCount : Nat
  errorCount : Nat
  errors : List String
deriving DecidableEq

/-- row.get(k): None when the column is absent. -/
def rowGet (row : List (String × String)) (k : String) : Option String :=
  lookupStr row k

/-- One iteration of the extract_data row loop (csv_importer.py, lines
60-83): build the keyword-argument call to QuestionData.  The call raises
TypeError whenever some keyword is not an accepted parameter — which the
system_prompt keyword is not — and the per-row handler swallows the error. -/
def extractRow (defaultCorrect : Option Bool) (row : List (String × String)) :
    Except String QuestionData :=
  if extractRowKwargs.all (fun k => questionDataParams.contains k) then
    .ok { jsonId := pyOrOpt (rowGet row "json_id") (rowGet row "id")
          category := match rowGet row "category" with
            | some v => some v
            | none => some "general"
          questionText := pyOrOpt (rowGet row "question") (rowGet row "question_text")
          goldenAnswer := pyOrOpt (rowGet row "golden_answer") (rowGet row "answer")
          answerSchema := pyOrOpt (rowGet row "answer_schema") (rowGet row "schema")
          defaultCorrect := defaultCorrect }
  else .error "__init__() got an unexpected keyword argument \x27system_prompt\x27"

/-- CSVImporter.extract_data (lines 46-85): erroring rows are skipped, and
rows whose question_text is falsy are skipped. -/
def csvExtractData (defaultCorrect : Option Bool)
    (rows : List (List (String × String))) : List QuestionData :=
  rows.foldl (fun acc row =>
    match extractRow defaultCorrect row with
    | .error _ => acc
    | .ok qd =>
      match qd.questionText with
      | none => acc
      | some t => if t = "" then acc else acc ++ [qd]) []

/-- Reading question_data.system_prompt (csv_importer.py, line 130):
QuestionData instances never have that attribute, so the read raises. -/
def questionDataSystemPrompt (_ : QuestionData) : Except String String :=
  .error "\x27QuestionData\x27 object has no attribute \x27system_prompt\x27"

/-- The truthy json_id used by the duplicate check (line 105). -/
def jsonIdTruthy (qd : QuestionData) : Option String :=
  match qd.jsonId with
  | some s => if s ≠ "" then some s else none
  | none => none

/-- CSVImporter.store_data (lines 87-146): per record, reject a duplicate
json_id, otherwise build and insert a Question row; any exception while
building it is recorded as an "Error storing question" error. -/
def csvStoreData (db : List DBQuestion) (data : List QuestionData) :
    ImportResult × List DBQuestion :=
  let step := fun (acc : Nat × Nat × List String × List DBQuestion) (qd : QuestionData) =>
    let (imported, errCount, errs, db) := acc
    match jsonIdTruthy qd with
    | some j =>
      if db.any (fun q => q.jsonId == some j) then
        (imported, errCount + 1,
         errs ++ ["Question with json_id \x27" ++ j ++ "\x27 already exists"], db)
      else
        match questionDataSystemPrompt qd with
        | .error m => (imported, errCount + 1, errs ++ ["Error storing question: " ++ m], db)
        | .ok sp =>
          (imported + 1, errCount, errs,
           db ++ [{ jsonId := qd.jsonId, category := qd.category,
                    questionText := qd.questionText, goldenAnswer := qd.goldenAnswer,
                    answerSchema := qd.answerSchema, systemPrompt := some sp,
                    defaultCorrect := qd.defaultCorrect }])
    | none =>
      match questionDataSystemPrompt qd with
      | .error m => (imported, errCount + 1, errs ++ ["Error storing question: " ++ m], db)
      | .ok sp =>
        (imported + 1, errCount, errs,
         db ++ [{ jsonId := qd.jsonId, category := qd.category,
                  questionText := qd.questionText, goldenAnswer := qd.goldenAnswer,
                  answerSchema := qd.answerSchema, systemPrompt := some sp,
                  defaultCorrect := qd.defaultCorrect }])
  let r := data.foldl step (0, 0, [], db)
  ({ success := r.2.1 = 0, importedCount := r.1, errorCount := r.2.1,
     errors := r.2.2.1 }, r.2.2.2)

/-- import_data for a validated CSV source: extract, then store. -/
def csvFullImport (db : List DBQuestion) (rows : List (List (String × String)))
    (defaultCorrect : Option Bool) : ImportResult × List DBQuestion :=
  csvStoreData db (csvExtractData defaultCorrect rows)

/-! ## Helper lemmas -/

lemma lookupStr_filter_ne {α : Type} (name : String) :
    ∀ l : List (String × α), lookupStr (l.filter (fun kv => kv.1 ≠ name)) name = none := by
  intro l
  induction l with
  | nil => rfl
  | cons kv t ih =>
    by_cases h : kv.1 = name
    · simpa [List.filter_cons, h] using ih
    · simpa [List.filter_cons, h, lookupStr] using ih

lemma contains_fst_filter_ne {α : Type} (name : String) :
    ∀ l : List (String × α),
      (((l.filter (fun kv => kv.1 ≠ name)).map Prod.fst).contains name) = false := by
  intro l
  induction l with
  | nil => rfl
  | cons kv t ih =>
    by_cases h : kv.1 = name
    · simp [List.filter_cons, h, ih]
    · simp [List.filter_cons, h, List.contains_cons, Ne.symm h, ih]

lemma lookupStr_eq_none_of_contains_false {α : Type} :
    ∀ (l : List (String × α)) (k : String),
      ((l.map Prod.fst).contains k) = false → lookupStr l k = none := by
  intro l
  induction l with
  | nil => intro k _; rfl
  | cons kv t ih =>
    intro k h
    simp only [List.map_cons, List.contains_cons, Bool.or_eq_false_iff,
      beq_eq_false_iff_ne] at h
    have h1 : kv.1 ≠ k := Ne.symm h.1
    simpa [lookupStr, h1] using ih k h.2

/-! ## Claim theorems -/

/-- C10: for every registry state and every name, remove_provider deletes
the name from the provider and rate-limiter registries but returns False,
because its return value re-checks membership after the deletion; a
registered and an unknown name are therefore indistinguishable to the
caller. -/
theorem c10_remove_provider_always_false :
    ∀ (st : ManagerState) (name : String),
      (removeProvider st name).1 = false ∧
      lookupStr (removeProvider st name).2.providers name = none ∧
      lookupStr (removeProvider st name).2.rateLimiters name = none := by
  intro st name
  unfold removeProvider
  by_cases hp : (providerKeys st.providers).contains name
  · by_cases hr : (st.rateLimiters.map Prod.fst).contains name
    · simp only [hp, hr, if_true]
      exact ⟨contains_fst_filter_ne name st.providers,
        lookupStr_filter_ne name st.providers, lookupStr_filter_ne name st.rateLimiters⟩
    · simp only [hp, hr, if_true, if_false]
      refine ⟨contains_fst_filter_ne name st.providers,
        lookupStr_filter_ne name st.providers, ?_⟩
      exact lookupStr_eq_none_of_contains_false st.rateLimiters name
        (by simpa using hr)
  · by_cases hr : (st.rateLimiters.map Prod.fst).contains name
    · simp only [hp, hr, if_true, if_false]
      refine ⟨by simpa [providerKeys] using hp, ?_, lookupStr_filter_ne name st.rateLimiters⟩
      exact lookupStr_eq_none_of_contains_false st.providers name
        (by simpa [providerKeys] using hp)
    · simp only [hp, hr, if_false]
      exact ⟨by simpa [providerKeys] using hp,
        lookupStr_eq_none_of_contains_false st.providers name (by simpa [providerKeys] using hp),
        lookupStr_eq_none_of_contains_false st.rateLimiters name (by simpa using hr)⟩

/-- C2: the call `process_question` makes into
`generate_response_with_failover` carries only the question text and the
preferred provider; the `system_prompt` and `failover_strategy` parameters
are left at their `None` defaults for every task, so no task-level system
prompt or strategy override ever reaches the manager (and `QuestionTask`
does not even declare such fields, although `engine.py` constructs it with
them). -/
theorem c2_worker_call_omits_system_prompt_and_strategy :
    ∀ task : QuestionTask,
      processQuestionGenerateArgs task =
        { prompt := task.questionText, preferredProvider := task.providerName,
          systemPrompt := none, failoverStrategy := none } :=
  fun _ => rfl

/-- C1: evaluating generate_response_with_failover at a concrete
configuration with one initialized provider and no per-call
failover-strategy override: resolving the strategy reads
`settings.processing.failover_strategy`, an attribute `ProcessingConfig`
does not declare, so the call raises AttributeError instead of returning a
WorkerResult; with a `rate_limit_only` override and a first provider that
fails while another remains, the failover decision reads the equally
undeclared `failover_on_errors` and raises as well. -/
theorem c1_generate_raises_attribute_error :
    generateWithFailover ⟨10, 3, 120, true, ⟨7/10, 1000, 1, 0, 0⟩⟩
        [("openai", { modelName := "gpt-3.5-turbo", gen := fun _ => .error "boom" })]
        "hello" none none none
      = .error (.attributeError "failover_strategy") ∧
    generateWithFailover ⟨10, 3, 120, true, ⟨7/10, 1000, 1, 0, 0⟩⟩
        [("a", { modelName := "m1", gen := fun _ => .error "rate limit exceeded" }),
         ("b", { modelName := "m2",
                 gen := fun _ => .ok ⟨"hi", some 5, some "m2", some 10, none⟩ })]
        "hello" none none (some "rate_limit_only")
      = .error (.attributeError "failover_on_errors") := by
  exact ⟨rfl, rfl⟩

/-- The 3-row CSV of the duplicate-import test: json_id values 1, 2 and 3,
each with non-empty question text. -/
def c4Rows : List (List (String × String)) :=
  [[("json_id", "1"), ("category", "math"), ("question", "What is 2+2?"),
    ("golden_answer", "4"), ("answer_schema", "")],
   [("json_id", "2"), ("category", "science"), ("question", "What is H2O?"),
    ("golden_answer", "Water"), ("answer_schema", "")],
   [("json_id", "3"), ("category", "geography"), ("question", "Capital of France?"),
    ("golden_answer", "Paris"), ("answer_schema", "")]]

/-- C4: extract_data passes a `system_prompt` keyword that
`QuestionData.__init__` does not accept, so every row raises TypeError and
is skipped; the full import of the 3-row CSV into an empty database
therefore yields imported_count 0 and error_count 0, stores nothing, and so
does a second run — not 3/0 then 0/3 as the claim (and the unit test of the
repository itself) states. -/
theorem c4_import_twice_imports_nothing :
    csvExtractData none c4Rows = [] ∧
    (csvFullImport [] c4Rows none).1 = ⟨true, 0, 0, []⟩ ∧
    (csvFullImport [] c4Rows none).2 = [] ∧
    (csvFullImport (csvFullImport [] c4Rows none).2 c4Rows none).1
      = ⟨true, 0, 0, []⟩ := by
  exact ⟨rfl, rfl, rfl, rfl⟩

/-- On a chronologically ordered log with the fresh timestamp appended, the
front-pruning while-loop of _cleanup_old_requests removes exactly the
entries older than the cutoff. -/
lemma dropWhile_cutoff_eq_filter (c x : Nat) (hx : ¬ x < c) :
    ∀ l : List Nat, List.Sorted (· ≤ ·) l →
      (l ++ [x]).dropWhile (fun r => decide (r < c)) =
      (l ++ [x]).filter (fun r => decide (c ≤ r)) := by
  intro l
  induction l with
  | nil =>
    intro _
    simp [List.dropWhile, List.filter, hx, Nat.le_of_not_lt hx]
  | cons a t ih =>
    intro hs
    rw [List.sorted_cons] at hs
    by_cases hac : a < c
    · have h1 : ¬ c ≤ a := Nat.not_le_of_lt hac
      simp only [List.cons_append, List.dropWhile_cons, List.filter_cons,
        decide_eq_true_eq, hac, if_true, h1, decide_eq_false h1]
      exact ih hs.2
    · have h1 : c ≤ a := Nat.le_of_not_lt hac
      have hrest : List.filter (fun r => decide (c ≤ r)) (t ++ [x]) = t ++ [x] := by
        apply List.filter_eq_self.mpr
        intro b hb
        rcases List.mem_append.mp hb with hb | hb
        · exact decide_eq_true (Nat.le_trans h1 (hs.1 b hb))
        · simp only [List.mem_singleton] at hb
          exact decide_eq_true (hb ▸ Nat.le_of_not_lt hx)
      simp [List.dropWhile_cons, List.filter_cons, hac, h1, hrest]

/-- C6: for a rate-limiter state whose logs are chronological, acquire
denies and records nothing when the current minute bucket holds at least
requests_per_minute events or the current hour bucket holds at least
requests_per_hour events; otherwise it appends the current timestamp to both
logs, prunes entries older than 60s (minute log) and 3600s (hour log), and
admits.  In particular, with requests_per_minute = 2, three calls at the
same second return true, true, false, and a fourth call 61 seconds later
returns true. -/
theorem c6_rate_limiter_acquire :
    (∀ (rpm rph : Nat) (st : RLState) (now : Nat),
        List.Sorted (· ≤ ·) st.minuteLog → List.Sorted (· ≤ ·) st.hourLog →
        (rpm ≤ bucketCount 60 st.minuteLog now ∨ rph ≤ bucketCount 3600 st.hourLog now →
          rlAcquire rpm rph st now = (false, st)) ∧
        (bucketCount 60 st.minuteLog now < rpm → bucketCount 3600 st.hourLog now < rph →
          rlAcquire rpm rph st now =
            (true, ⟨(st.minuteLog ++ [now]).filter (fun r => decide (now - 60 ≤ r)),
                    (st.hourLog ++ [now]).filter (fun r => decide (now - 3600 ≤ r))⟩))) ∧
    (rlAcquire 2 1000 ⟨[], []⟩ 0 = (true, ⟨[0], [0]⟩) ∧
     rlAcquire 2 1000 ⟨[0], [0]⟩ 0 = (true, ⟨[0, 0], [0, 0]⟩) ∧
     rlAcquire 2 1000 ⟨[0, 0], [0, 0]⟩ 0 = (false, ⟨[0, 0], [0, 0]⟩) ∧
     (rlAcquire 2 1000 ⟨[0, 0], [0, 0]⟩ 61).1 = true) := by
  refine ⟨?_, by decide, by decide, by decide, by decide⟩
  intro rpm rph st now hm hh
  constructor
  · intro h
    unfold rlAcquire
    rcases h with h | h
    · rw [if_pos h]
    · by_cases h2 : rpm ≤ bucketCount 60 st.minuteLog now
      · rw [if_pos h2]
      · rw [if_neg h2, if_pos h]
  · intro h1 h2
    unfold rlAcquire
    rw [if_neg (Nat.not_le_of_lt h1), if_neg (Nat.not_le_of_lt h2)]
    unfold rlCleanup
    have e1 := dropWhile_cutoff_eq_filter (now - 60) now (by omega) st.minuteLog hm
    have e2 := dropWhile_cutoff_eq_filter (now - 3600) now (by omega) st.hourLog hh
    simp only at e1 e2 ⊢
    rw [e1, e2]

/-- Witness for C6: the admit branch of the theorem applied to the concrete
state reached after two admitted requests, 61 seconds later. -/
theorem c6_witness :
    rlAcquire 2 1000 ⟨[0, 30], [0, 30]⟩ 61 = (true, ⟨[30, 61], [0, 30, 61]⟩) := by
  have h := ((c6_rate_limiter_acquire.1 2 1000 ⟨[0, 30], [0, 30]⟩ 61
    (by decide) (by decide)).2 (by decide) (by decide))
  exact h.trans (by decide)

/-- The task of the retry-ceiling run: max_retries = 2. -/
def c8Task : QuestionTask :=
  { questionId := 1, category := "general", questionText := "q",
    goldenAnswer := none, answerSchema := none, maxRetries := 2 }

/-- One processing round in which the attempt fails: dequeue the task, mark
it failed, then let the engine call retry_task on it. -/
def c8Round (st : QueueState) : Bool × QueueState :=
  let s1 := (getNextTask st).2
  let s2 := markCompleted s1 1 false
  retryTask s2 1

/-- Three failing rounds starting from a fresh queue holding only c8Task:
the retry_task return values, and the final state. -/
def c8Run : List Bool × QueueState :=
  let st0 := addTask ⟨[], [], [], [], []⟩ c8Task
  let r1 := c8Round st0
  let r2 := c8Round r1.2
  let r3 := c8Round r2.2
  ([r1.1, r2.1, r3.1], r3.2)

/-- C8: retry_task succeeds exactly when the task exists and its retry count
is strictly below its maximum, in which case it increments the count, clears
the error message, returns the task to PENDING, removes it from the failed
set and re-enqueues it; otherwise it returns false and leaves the state
unchanged.  Consequently a task with max_retries = 2 that fails on every
attempt is retried exactly twice and ends FAILED with retry_count = 2. -/
theorem c8_retry_task :
    (∀ (st : QueueState) (id : Nat),
        (assocFind st.tasks id = none → retryTask st id = (false, st)) ∧
        (∀ t, assocFind st.tasks id = some t →
          (t.retryCount < t.maxRetries →
            retryTask st id =
              (true, { st with
                tasks := assocPut st.tasks id
                  { t with retryCount := t.retryCount + 1,
                           status := TaskStatus.pending, errorMessage := none },
                failed := setErase st.failed id,
                queue := st.queue ++ [id] })) ∧
          (¬ t.retryCount < t.maxRetries → retryTask st id = (false, st)))) ∧
    (c8Run.1 = [true, true, false] ∧
     assocFind c8Run.2.tasks 1 =
       some { c8Task with status := TaskStatus.failed, retryCount := 2 } ∧
     c8Run.2.failed = [1]) := by
  refine ⟨?_, by decide, by decide, by decide⟩
  intro st id
  refine ⟨?_, ?_⟩
  · intro h
    unfold retryTask
    rw [h]
  · intro t ht
    constructor
    · intro hlt
      unfold retryTask
      rw [ht]
      simp only [if_pos hlt]
    · intro hge
      unfold retryTask
      rw [ht]
      simp only [if_neg hge]

/-- Witness for C8: retry_task on a task already at its retry ceiling (2 of
2, FAILED) returns false and leaves the state unchanged. -/
theorem c8_witness :
    retryTask
      ⟨[], [], [], [1],
       [(1, { c8Task with status := TaskStatus.failed, retryCount := 2 })]⟩ 1 =
    (false,
      ⟨[], [], [], [1],
       [(1, { c8Task with status := TaskStatus.failed, retryCount := 2 })]⟩) := by
  exact ((c8_retry_task.1
      ⟨[], [], [], [1],
       [(1, { c8Task with status := TaskStatus.failed, retryCount := 2 })]⟩ 1).2
    { c8Task with status := TaskStatus.failed, retryCount := 2 } (by decide)).2 (by decide)

/-- A stand-in for json.loads on a few concrete inputs: "0" and "4" parse
to numbers, anything else fails to parse. -/
def c9Loads : String → Except String JsonVal := fun s =>
  if s = "0" then .ok (.num 0)
  else if s = "4" then .ok (.num 4)
  else .error "Expecting value: line 1 column 1 (char 0)"

/-- A stand-in for the Draft-7 validator on a few concrete schemas: one
raises SchemaError, one reports a violation, the rest accept. -/
def c9Iter : JsonVal → JsonVal → Except String (List SchemaViolation) := fun _ schema =>
  if schema = .str "bad-schema" then .error "boom"
  else if schema = .str "viol" then .ok [⟨["answer"], "is not of type number"⟩]
  else .ok []

/-- C9 counterexample: response text "0" parses (to the number 0) and has no
violations, so by the claim the result should carry the parsed data; but the
ValidationResult constructor replaces the falsy value 0 by an empty dict, so
the valid result does not carry the parsed data. -/
theorem c9_counterexample :
    c9Loads "0" = .ok (.num 0) ∧
    validateResponseSV c9Loads c9Iter "0" .emptyObject = ⟨true, [], .emptyObject⟩ ∧
    (validateResponseSV c9Loads c9Iter "0" .emptyObject).normalized ≠ JsonVal.num 0 := by
  exact ⟨rfl, rfl, by decide⟩

/-- C9 (amended): unparseable response text yields an invalid result whose
error list is exactly one "Invalid JSON: ..." message; a schema the
validator rejects yields an invalid result with an "Invalid schema" error
instead of raising; otherwise every violation is collected and formatted as
"Path (path or root): message"; with no violations the result is valid and
carries the parsed data when that value is truthy (a falsy parsed value is
replaced by an empty object by the ValidationResult constructor). -/
theorem c9_validate_response :
    ∀ (loads : String → Except String JsonVal)
      (iter : JsonVal → JsonVal → Except String (List SchemaViolation))
      (text : String) (schema : JsonVal),
      (∀ m, loads text = .error m →
        validateResponseSV loads iter text schema =
          ⟨false, ["Invalid JSON: " ++ m], .emptyObject⟩) ∧
      (∀ d m, loads text = .ok d → iter d schema = .error m →
        validateResponseSV loads iter text schema =
          ⟨false, ["Invalid schema: " ++ m], .emptyObject⟩) ∧
      (∀ d vs, loads text = .ok d → iter d schema = .ok vs → vs ≠ [] →
        validateResponseSV loads iter text schema =
          ⟨false, vs.map formatViolation, .emptyObject⟩) ∧
      (∀ d, loads text = .ok d → iter d schema = .ok [] →
        validateResponseSV loads iter text schema =
          ⟨true, [], if jsonTruthy d then d else .emptyObject⟩) := by
  intro loads iter text schema
  refine ⟨?_, ?_, ?_, ?_⟩
  · intro m h
    unfold validateResponseSV
    rw [h]
    rfl
  · intro d m h1 h2
    unfold validateResponseSV
    rw [h1]
    show validateJsonData iter d schema = _
    unfold validateJsonData
    rw [h2]
    rfl
  · intro d vs h1 h2 hne
    unfold validateResponseSV
    rw [h1]
    show validateJsonData iter d schema = _
    unfold validateJsonData
    rw [h2]
    cases vs with
    | nil => exact absurd rfl hne
    | cons v vt => rfl
  · intro d h1 h2
    unfold validateResponseSV
    rw [h1]
    show validateJsonData iter d schema = _
    unfold validateJsonData
    rw [h2]
    unfold mkVResult
    rfl

/-- Witness for C9: the four branches of the theorem at concrete inputs. -/
theorem c9_witness :
    validateResponseSV c9Loads c9Iter "not json" .emptyObject =
      ⟨false, ["Invalid JSON: Expecting value: line 1 column 1 (char 0)"], .emptyObject⟩ ∧
    validateResponseSV c9Loads c9Iter "4" (.str "bad-schema") =
      ⟨false, ["Invalid schema: boom"], .emptyObject⟩ ∧
    validateResponseSV c9Loads c9Iter "4" (.str "viol") =
      ⟨false, ["Path \x27answer\x27: is not of type number"], .emptyObject⟩ ∧
    validateResponseSV c9Loads c9Iter "4" .null = ⟨true, [], .num 4⟩ := by
  refine ⟨(c9_validate_response c9Loads c9Iter "not json" .emptyObject).1 _ rfl,
    (c9_validate_response c9Loads c9Iter "4" (.str "bad-schema")).2.1 _ _ rfl rfl,
    ((c9_validate_response c9Loads c9Iter "4" (.str "viol")).2.2.1 _ _ rfl rfl
      (by decide)).trans (by decide),
    ((c9_validate_response c9Loads c9Iter "4" .null).2.2.2 _ rfl rfl).trans (by decide)⟩

/-- A stand-in for json.loads on schema strings that are not valid JSON. -/
def c3Loads : String → Except String JsonVal := fun _ =>
  .error "Expecting value: line 1 column 1 (char 0)"

def c3Iter : JsonVal → JsonVal → Except String (List SchemaViolation) := fun _ _ => .ok []

/-- A task whose answer_schema string is not parseable as JSON. -/
def c3Task : QuestionTask :=
  { questionId := 7, category := "math", questionText := "What is 2+2?",
    goldenAnswer := none, answerSchema := some "not json" }

/-- A successful generation result for that task. -/
def c3Gen : WorkerResult :=
  { questionId := 0, providerName := "openai", modelName := "gpt-3.5-turbo",
    success := true, responseText := some "the answer is 4", thinking := some "t" }

/-- C3 counterexample: a successful generation whose schema string is
unparseable is NOT treated as valid — the worker produces a failed
WorkerResult with error type schema_validation and persists it as an
InvalidResponse, contrary to the claim. -/
theorem c3_counterexample :
    (processAfterGeneration c3Loads c3Iter true 5 c3Task c3Gen).2 = .storeInvalid ∧
    (processAfterGeneration c3Loads c3Iter true 5 c3Task c3Gen).1.errorType
      = some "schema_validation" ∧
    (processAfterGeneration c3Loads c3Iter true 5 c3Task c3Gen).1.success = false := by
  decide

/-- C3 (amended): when generation succeeds, validation is enabled, the
response text is non-empty, and the answer_schema string fails to parse as
JSON, the worker fails the task: _validate_response returns the single error
"Invalid JSON schema: ..." and process_question produces a failed
WorkerResult with error type schema_validation, persisted as an
InvalidResponse (not as a Response). -/
theorem c3_unparseable_schema_fails_task :
    ∀ (loads : String → Except String JsonVal)
      (iter : JsonVal → JsonVal → Except String (List SchemaViolation))
      (elapsed : Nat) (task : QuestionTask) (genr : WorkerResult) (sj m rt th : String),
      genr.success = true → genr.thinking = some th →
      genr.responseText = some rt → rt ≠ "" →
      task.answerSchema = some sj → sj ≠ "" →
      loads sj = .error m →
      processAfterGeneration loads iter true elapsed task genr =
        ({ questionId := task.questionId, providerName := genr.providerName,
           modelName := genr.modelName, success := false,
           responseText := some rt, thinking := some th,
           errorMessage := some "Schema validation failed",
           errorType := some "schema_validation",
           validationErrors := some ["Invalid JSON schema: " ++ m],
           tokensUsed := genr.tokensUsed,
           processingTimeMs := genr.processingTimeMs }, .storeInvalid) := by
  intro loads iter elapsed task genr sj m rt th hs hth hrt hrtne hsj hsjne hload
  unfold processAfterGeneration workerValidate
  simp [hs, hth, hrt, hrtne, hsj, hsjne, hload]

/-- Witness for C3: the amended theorem at a concrete task and result. -/
theorem c3_witness :
    processAfterGeneration c3Loads c3Iter true 9 { c3Task with questionId := 8 } c3Gen
      = ({ questionId := 8, providerName := "openai", modelName := "gpt-3.5-turbo",
           success := false, responseText := some "the answer is 4",
           thinking := some "t",
           errorMessage := some "Schema validation failed",
           errorType := some "schema_validation",
           validationErrors :=
             some ["Invalid JSON schema: Expecting value: line 1 column 1 (char 0)"],
           tokensUsed := none, processingTimeMs := none }, .storeInvalid) := by
  exact (c3_unparseable_schema_fails_task c3Loads c3Iter 9
    { c3Task with questionId := 8 } c3Gen "not json"
    "Expecting value: line 1 column 1 (char 0)" "the answer is 4" "t"
    rfl rfl rfl (by decide) rfl (by decide) rfl).trans (by decide)

/-- Under preferred_only the failover decision is always negative (lines
178-180; the last-provider guard can only make it negative earlier). -/
lemma shouldFailover_preferred_only (cfg : ProcessingConfig) (et : String)
    (a t : Nat) : shouldFailover cfg "preferred_only" et a t = .ok false := by
  unfold shouldFailover
  split <;> rfl

def c5Cfg : ProcessingConfig := ⟨10, 3, 120, true, ⟨7/10, 1000, 1, 0, 0⟩⟩

def c5RespB : ParsedResponse := ⟨"hi", some 5, some "m2", some 10, none⟩

/-- First registered provider: always fails. -/
def c5ProvA : Provider := { modelName := "model-a", gen := fun _ => .error "boom" }

/-- Second registered provider: always succeeds. -/
def c5ProvB : Provider := { modelName := "model-b", gen := fun _ => .ok c5RespB }

/-- C5 counterexample: two providers, the first fails, the second would
succeed; under preferred_only with no preferred provider the call returns
the failure of the first provider — the second provider is never attempted,
so its success is not returned as the claim states. -/
theorem c5_counterexample :
    c5ProvB.gen (buildFullPrompt none "q") = .ok c5RespB ∧
    generateWithFailover c5Cfg [("a", c5ProvA), ("b", c5ProvB)] "q" none none
        (some "preferred_only")
      = .ok (failureResult none (some "boom") (some "general")) ∧
    (failureResult none (some "boom") (some "general")).success = false := by
  exact ⟨rfl, rfl, rfl⟩

/-- C5 (amended): under preferred_only with no usable preferred provider
the provider try-list is every configured provider in registration order,
but _should_failover never allows continuing: only the first registered
provider is attempted — its failure is returned as the terminal result (with
the error classified), and its success is returned on success. -/
theorem c5_preferred_only_no_failover :
    ∀ (cfg : ProcessingConfig) (aname : String) (pa : Provider)
      (rest : List (String × Provider)) (prompt : String) (sysP pref : Option String),
      preferredOk ((aname, pa) :: rest) pref = false →
      (getProvidersForStrategy ((aname, pa) :: rest) "preferred_only" pref
          = aname :: providerKeys rest) ∧
      (∀ msg, pa.gen (buildFullPrompt sysP prompt) = .error msg →
        generateWithFailover cfg ((aname, pa) :: rest) prompt pref sysP
            (some "preferred_only")
          = .ok (failureResult pref (some msg) (some (classifyError msg)))) ∧
      (∀ resp, pa.gen (buildFullPrompt sysP prompt) = .ok resp →
        generateWithFailover cfg ((aname, pa) :: rest) prompt pref sysP
            (some "preferred_only")
          = .ok (successResult aname pa resp)) := by
  intro cfg aname pa rest prompt sysP pref hpref
  have hstrat : getProvidersForStrategy ((aname, pa) :: rest) "preferred_only" pref
      = aname :: providerKeys rest := by
    unfold getProvidersForStrategy
    rw [hpref]
    simp [providerKeys]
  have hlook : lookupStr ((aname, pa) :: rest) aname = some pa := by
    simp [lookupStr]
  refine ⟨hstrat, ?_, ?_⟩
  · intro msg hmsg
    unfold generateWithFailover
    rw [show resolveStrategy cfg (some "preferred_only") = .ok "preferred_only" from rfl]
    show (let toTry := getProvidersForStrategy ((aname, pa) :: rest) "preferred_only" pref
      ; if toTry.isEmpty then Except.ok (configErrorResult pref "preferred_only")
        else attemptLoop cfg ((aname, pa) :: rest) "preferred_only"
          (buildFullPrompt sysP prompt) pref toTry.length toTry 0 none none) = _
    simp only [hstrat, List.isEmpty_cons, Bool.false_eq_true, if_false]
    unfold attemptLoop
    rw [hlook]
    show ((match pa.gen (buildFullPrompt sysP prompt) with
      | Except.ok resp => Except.ok (successResult aname pa resp)
      | Except.error msg =>
        match shouldFailover cfg "preferred_only" (classifyError msg) 0
            (aname :: providerKeys rest).length with
        | Except.error e => Except.error e
        | Except.ok true => attemptLoop cfg ((aname, pa) :: rest) "preferred_only"
            (buildFullPrompt sysP prompt) pref (aname :: providerKeys rest).length
            (providerKeys rest) 1 (some msg) (some (classifyError msg))
        | Except.ok false =>
            Except.ok (failureResult pref (some msg) (some (classifyError msg))))
      : Except PyError WorkerResult) = _
    simp only [hmsg, shouldFailover_preferred_only]
  · intro resp hresp
    unfold generateWithFailover
    rw [show resolveStrategy cfg (some "preferred_only") = .ok "preferred_only" from rfl]
    show (let toTry := getProvidersForStrategy ((aname, pa) :: rest) "preferred_only" pref
      ; if toTry.isEmpty then Except.ok (configErrorResult pref "preferred_only")
        else attemptLoop cfg ((aname, pa) :: rest) "preferred_only"
          (buildFullPrompt sysP prompt) pref toTry.length toTry 0 none none) = _
    simp only [hstrat, List.isEmpty_cons, Bool.false_eq_true, if_false]
    unfold attemptLoop
    rw [hlook]
    show ((match pa.gen (buildFullPrompt sysP prompt) with
      | Except.ok resp => Except.ok (successResult aname pa resp)
      | Except.error msg =>
        match shouldFailover cfg "preferred_only" (classifyError msg) 0
            (aname :: providerKeys rest).length with
        | Except.error e => Except.error e
        | Except.ok true => attemptLoop cfg ((aname, pa) :: rest) "preferred_only"
            (buildFullPrompt sysP prompt) pref (aname :: providerKeys rest).length
            (providerKeys rest) 1 (some msg) (some (classifyError msg))
        | Except.ok false =>
            Except.ok (failureResult pref (some msg) (some (classifyError msg))))
      : Except PyError WorkerResult) = _
    simp only [hresp]

/-- Witness for C5: the amended theorem at the two concrete providers. -/
theorem c5_witness :
    getProvidersForStrategy [("a", c5ProvA), ("b", c5ProvB)] "preferred_only" none
        = ["a", "b"] ∧
    generateWithFailover c5Cfg [("a", c5ProvA), ("b", c5ProvB)] "hello" none none
        (some "preferred_only")
      = .ok (failureResult none (some "boom") (some (classifyError "boom"))) := by
  have h := c5_preferred_only_no_failover c5Cfg "a" c5ProvA [("b", c5ProvB)]
    "hello" none none rfl
  exact ⟨h.1.trans (by decide), h.2.1 "boom" rfl⟩

/-- The truthiness test `separate_reasoning and separate_reasoning.strip()`
guarding the out-of-band branch of extract_thinking (line 107). -/
def sepSupplied (sep : Option (List Char)) : Bool :=
  match sep with
  | some r => !r.isEmpty && !(pyStrip r).isEmpty
  | none => false

/-- C7 counterexample: a non-empty, all-whitespace separate_reasoning value
(one space).  The claim says it is returned verbatim as thinking with the
content unmodified; the code requires the stripped value to be non-empty, so
it falls through to the tag search and extracts from the think span
instead. -/
theorem c7_counterexample :
    extractThinking "<think>a</think>b".toList (some " ".toList)
      = ("b".toList, some "a".toList) ∧
    extractThinking "<think>a</think>b".toList (some " ".toList)
      ≠ ("<think>a</think>b".toList, some " ".toList) := by
  exact ⟨by decide, by decide⟩

/-- C7 (amended): if a separate_reasoning value that is non-empty after
trimming whitespace is supplied, its trimmed value becomes thinking and the
content is returned unmodified; otherwise, if the content holds a
case-insensitive think span (across lines), the trimmed inner text of the
first span becomes thinking and every such span is removed from the returned
content, which is trimmed of surrounding whitespace; else the same rule
applies to a reason span; with neither tag, thinking is absent and the
content is returned unchanged. -/
theorem c7_extract_thinking :
    ∀ (content : List Char) (sep : Option (List Char)),
      (∀ r, sep = some r → pyStrip r ≠ [] →
        extractThinking content sep = (content, some (pyStrip r))) ∧
      (sepSupplied sep = false →
        (∀ pre inner post,
          spanSearch thinkOpen thinkClose content = some (pre, inner, post) →
          extractThinking content sep
            = (pyStrip (removeThink content), some (pyStrip inner))) ∧
        (spanSearch thinkOpen thinkClose content = none →
          ∀ pre inner post,
            spanSearch reasonOpen reasonClose content = some (pre, inner, post) →
            extractThinking content sep
              = (pyStrip (removeReason content), some (pyStrip inner))) ∧
        (spanSearch thinkOpen thinkClose content = none →
          spanSearch reasonOpen reasonClose content = none →
          extractThinking content sep = (content, none))) := by
  intro content sep
  constructor
  · intro r hr hstrip
    subst hr
    have h1 : r.isEmpty = false := by
      cases r with
      | nil => exact absurd rfl hstrip
      | cons a t => rfl
    have h2 : (pyStrip r).isEmpty = false := by
      cases hps : pyStrip r with
      | nil => exact absurd hps hstrip
      | cons a t => rfl
    unfold extractThinking
    simp [h1, h2]
  · intro hsep
    have he : extractThinking content sep = tagSearch content := by
      unfold extractThinking
      cases sep with
      | none => rfl
      | some r =>
        simp only [sepSupplied] at hsep
        simp [hsep]
    refine ⟨?_, ?_, ?_⟩
    · intro pre inner post hspan
      rw [he]
      unfold tagSearch
      simp only [hspan]
    · intro hnone pre inner post hspan
      rw [he]
      unfold tagSearch
      simp only [hnone, hspan]
    · intro h1 h2
      rw [he]
      unfold tagSearch
      simp only [h1, h2]

/-- Witness for C7: the out-of-band branch of the theorem at a concrete
input, showing the supplied reasoning trimmed and the content untouched. -/
theorem c7_witness :
    extractThinking "x".toList (some " r ".toList) = ("x".toList, some "r".toList) := by
  exact ((c7_extract_thinking "x".toList (some " r ".toList)).1 " r ".toList rfl
    (by decide)).trans (by decide)

example : extractThinking "<think>reasoning here</think>Final answer.".toList none
    = ("Final answer.".toList, some "reasoning here".toList) := by decide

example : extractThinking "no tags".toList none = ("no tags".toList, none) := by decide

example : extractThinking "<THINK>a</THINK>b".toList none
    = ("b".toList, some "a".toList) := by decide

example : rlAcquire 2 1000 ⟨[], []⟩ 0 = (true, ⟨[0], [0]⟩) := by decide

example : rlAcquire 2 1000 ⟨[0, 0], [0, 0]⟩ 0 = (false, ⟨[0, 0], [0, 0]⟩) := by decide

example : (rlAcquire 2 1000 ⟨[0, 0], [0, 0]⟩ 61).1 = true := by decide
